import Mathlib

/-!
Shallow embedding of the activity scoring engine of the
Weather-Activity-Planner repository
(`src/backend/src/services/activityRankingService.js`).

JavaScript numbers are modelled as rationals (`ℚ`); every arithmetic
operation performed by the engine on the values it handles is exact, so the
rational model agrees with the JavaScript semantics on the quantities the
theorems below talk about.  The one non-rational behaviour the engine can
exhibit is the `NaN` produced by `totalScore / dailyScores.length` on an
empty day list (`0 / 0` in JavaScript); that non-numeric outcome is made
explicit with `Option`: `averageScore : Option ℤ` is `none` exactly when the
JavaScript value is `NaN`, and `some a` when the JavaScript value is the
integer `a` produced by `Math.round`.
-/

/-- One day of weather input, as produced by the weather service
(`getWeatherForecast`): `date`, `maxTemp`, `minTemp`, `precipitation`,
`windSpeed`, `snowfall`, `cloudCover`. -/
structure DailyWeather where
  date : String
  maxTemp : ℚ
  minTemp : ℚ
  precipitation : ℚ
  windSpeed : ℚ
  snowfall : ℚ
  cloudCover : ℚ
deriving Repr, DecidableEq

/-- The final line of each scoring function:
`Math.max(0, Math.min(100, score))`. -/
def clampScore (s : ℚ) : ℚ := max 0 (min 100 s)

/-- `scoreSkiing(weather)` translated line by line: the `let` chain mirrors
the successive mutations of the local variable `score`. -/
def scoreSkiing (w : DailyWeather) : ℚ :=
  let s0 : ℚ := 0
  let s1 := if w.snowfall > 0 then s0 + min 50 (w.snowfall * 5) else s0
  let s2 := if w.maxTemp < 2 then s1 + 30 else if w.maxTemp < 7 then s1 + 15 else s1
  let s3 := if w.windSpeed > 40 then s2 - 15 else s2
  let s4 := if w.precipitation > 5 then s3 - 10 else s3
  clampScore s4

/-- `scoreSurfing(weather)` translated line by line. -/
def scoreSurfing (w : DailyWeather) : ℚ :=
  let s0 : ℚ := 50
  let s1 := if w.windSpeed > 10 ∧ w.windSpeed < 35 then s0 + 25
            else if w.windSpeed > 40 then s0 - 20 else s0
  let s2 := if w.maxTemp > 18 then s1 + 20 else s1
  let s3 := if w.precipitation > 8 then s2 - 15 else s2
  clampScore s3

/-- `scoreOutdoorSightseeing(weather)` translated line by line. -/
def scoreOutdoorSightseeing (w : DailyWeather) : ℚ :=
  let s0 : ℚ := 60
  let s1 := if w.cloudCover < 40 then s0 + 20
            else if w.cloudCover > 80 then s0 - 10 else s0
  let s2 := if w.maxTemp ≥ 15 ∧ w.maxTemp ≤ 28 then s1 + 20
            else if w.maxTemp < 5 ∨ w.maxTemp > 35 then s1 - 20 else s1
  let s3 := if w.precipitation > 0 then s2 - w.precipitation * 2 else s2
  clampScore s3

/-- `scoreIndoorSightseeing(weather)` translated line by line. -/
def scoreIndoorSightseeing (w : DailyWeather) : ℚ :=
  let s0 : ℚ := 70
  let s1 := if w.precipitation > 5 then s0 + 15 else s0
  let s2 := if w.maxTemp < 5 ∨ w.maxTemp > 30 then s1 + 15 else s1
  let s3 := if w.precipitation = 0 ∧ w.cloudCover < 50 ∧
               w.maxTemp > 15 ∧ w.maxTemp < 25 then s2 - 20 else s2
  clampScore s3

/-- `getConditionDescription(score)`. -/
def getConditionDescription (score : ℚ) : String :=
  if score ≥ 75 then "Great"
  else if score ≥ 60 then "Good"
  else if score ≥ 40 then "OK"
  else "Poor"

/-- `Math.round` on a (finite) JavaScript number: round half toward `+∞`,
which for the non-negative scores of this engine is round half away from
zero. -/
def jsRound (q : ℚ) : ℤ := ⌊q + 1 / 2⌋

/-- `getRecommendation(activity, avgScore)`.  `avgScore` is `none` when the
JavaScript value is `NaN`; both `NaN >= 70` and `NaN >= 50` are false in
JavaScript, so `none` takes the final `else` branch. -/
def getRecommendation (activity : String) (avgScore : Option ℤ) : String :=
  match avgScore with
  | some a =>
      if a ≥ 70 then "Perfect week for " ++ activity ++ "!"
      else if a ≥ 50 then "Decent conditions for " ++ activity ++ " this week."
      else "Not the best week for " ++ activity ++ "."
  | none => "Not the best week for " ++ activity ++ "."

/-- One element of the `dailyScores` array built by
`calculateActivityRankings`. -/
structure ActivityDayScore where
  date : String
  score : ℚ
  conditions : String
deriving Repr, DecidableEq

/-- One element of the array returned by `calculateActivityRankings`.
`averageScore` is `none` exactly when the JavaScript value is `NaN`. -/
structure ActivityRanking where
  activity : String
  averageScore : Option ℤ
  dailyScores : List ActivityDayScore
  recommendation : String
deriving Repr, DecidableEq

/-- The body of the `activities.map(activity => ...)` callback in
`calculateActivityRankings`, for one `{ name, scoreFn }` pair:
build `dailyScores`, total them with `reduce`, average with `Math.round`,
and assemble the ranking object.  `totalScore / dailyScores.length` is
`0 / 0 = NaN` in JavaScript when the day list is empty, and
`Math.round(NaN)` is `NaN`; the `if` makes that non-numeric case explicit
as `none`. -/
def rankActivity (name : String) (scoreFn : DailyWeather → ℚ)
    (weatherData : List DailyWeather) : ActivityRanking :=
  let dailyScores := weatherData.map (fun day =>
    ActivityDayScore.mk day.date (scoreFn day)
      (getConditionDescription (scoreFn day)))
  let totalScore := dailyScores.foldl (fun sum day => sum + day.score) 0
  let averageScore : Option ℤ :=
    if dailyScores.length = 0 then none
    else some (jsRound (totalScore / (dailyScores.length : ℚ)))
  { activity := name
    averageScore := averageScore
    dailyScores := dailyScores
    recommendation := getRecommendation name averageScore }

/-- `calculateActivityRankings(weatherData)`: map the fixed `activities`
table, in source order, through the ranking builder. -/
def calculateActivityRankings (weatherData : List DailyWeather) :
    List ActivityRanking :=
  [("Skiing", scoreSkiing),
   ("Surfing", scoreSurfing),
   ("Outdoor Sightseeing", scoreOutdoorSightseeing),
   ("Indoor Sightseeing", scoreIndoorSightseeing)].map
    (fun activity => rankActivity activity.1 activity.2 weatherData)

/-! ### Concrete inputs and evaluated outputs used by the witnesses -/

/-- A mild summer day: no precipitation or snowfall, light wind, clear sky. -/
def d0 : DailyWeather := ⟨"2024-01-01", 20, 10, 0, 20, 0, 10⟩

/-- The Skiing ranking `calculateActivityRankings` produces for `[d0]`. -/
def rk0 : ActivityRanking :=
  ⟨"Skiing", some 0, [⟨"2024-01-01", 0, "Poor"⟩], "Not the best week for Skiing."⟩

/-- The Surfing ranking `calculateActivityRankings` produces for `[d0]`. -/
def rk1 : ActivityRanking :=
  ⟨"Surfing", some 95, [⟨"2024-01-01", 95, "Great"⟩], "Perfect week for Surfing!"⟩

/-- The Outdoor Sightseeing ranking `calculateActivityRankings` produces for
`[d0]`. -/
def rk2 : ActivityRanking :=
  ⟨"Outdoor Sightseeing", some 100, [⟨"2024-01-01", 100, "Great"⟩],
   "Perfect week for Outdoor Sightseeing!"⟩

/-- The Indoor Sightseeing ranking `calculateActivityRankings` produces for
`[d0]`. -/
def rk3 : ActivityRanking :=
  ⟨"Indoor Sightseeing", some 50, [⟨"2024-01-01", 50, "OK"⟩],
   "Decent conditions for Indoor Sightseeing this week."⟩

/-- The scenario day of the spec, section 8: Skiing score 50. -/
def day1 : DailyWeather := ⟨"2024-02-01", 1, -5, 0, 10, 4, 20⟩

/-- The boundary day of the spec, section 8: `windSpeed = 37`, inside the
Surfing wind dead zone. -/
def day37 : DailyWeather := ⟨"2024-03-01", 20, 10, 0, 37, 0, 50⟩

/-- A day whose precipitation (`0.25` mm, exactly representable in binary
floating point) makes the raw Outdoor Sightseeing score fractional:
`60 + 20 + 20 - 0.25 * 2 = 99.5`. -/
def dBad : DailyWeather := ⟨"2024-01-02", 20, 10, 1 / 4, 20, 0, 10⟩

/-- Full evaluation of the engine on the one-day input `[d0]`. -/
theorem calc_d0 : calculateActivityRankings [d0] = [rk0, rk1, rk2, rk3] := by
  simp only [calculateActivityRankings, rankActivity, List.map_cons, List.map_nil,
    List.foldl_cons, List.foldl_nil, List.length_cons, List.length_nil,
    scoreSkiing, scoreSurfing, scoreOutdoorSightseeing, scoreIndoorSightseeing,
    clampScore, getConditionDescription, getRecommendation, jsRound, d0,
    rk0, rk1, rk2, rk3]
  norm_num
  decide

/-! ### Helper lemmas -/

lemma clampScore_nonneg (s : ℚ) : 0 ≤ clampScore s := le_max_left 0 _

lemma clampScore_le (s : ℚ) : clampScore s ≤ 100 :=
  max_le (by norm_num) (min_le_left 100 s)

lemma foldl_add_score (l : List ActivityDayScore) (init : ℚ) :
    l.foldl (fun sum day => sum + day.score) init
      = init + (l.map ActivityDayScore.score).sum := by
  induction l generalizing init with
  | nil => simp
  | cons a t ih => simp [ih]; ring

lemma rankActivity_averageScore (name : String) (f : DailyWeather → ℚ)
    (wd : List DailyWeather) (hne : wd ≠ []) :
    (rankActivity name f wd).averageScore
      = some (jsRound ((((rankActivity name f wd).dailyScores).map
          ActivityDayScore.score).sum
            / (((rankActivity name f wd).dailyScores).length : ℚ))) := by
  simp only [rankActivity]
  rw [if_neg]
  · rw [foldl_add_score]
    simp
  · simp [hne]

lemma sum_ge_card_mul (l : List ℚ) (c : ℚ) (h : ∀ x ∈ l, c ≤ x) :
    c * l.length ≤ l.sum := by
  induction l with
  | nil => simp
  | cons a t ih =>
      have ha := h a (List.mem_cons_self a t)
      have ht := ih (fun x hx => h x (List.mem_cons_of_mem a hx))
      simp only [List.sum_cons, List.length_cons]
      push_cast
      nlinarith

lemma jsRound_ge (z : ℤ) (q : ℚ) (h : (z : ℚ) ≤ q) : z ≤ jsRound q := by
  apply Int.le_floor.mpr
  linarith

lemma scoreIndoor_ge (w : DailyWeather) : 50 ≤ scoreIndoorSightseeing w := by
  simp only [scoreIndoorSightseeing, clampScore]
  split_ifs <;> (apply le_max_of_le_right; apply le_min <;> norm_num)

/-! ### Spec-side formulations used for refinement comparisons -/

/-- The Skiing rule as the spec words it, section 4.1: baseline 0, add
`min(50, snowfall x 5)` if `snowfall > 0`, add 30 if `maxTemp < 2` else 15
if `maxTemp < 7`, subtract 15 if `windSpeed > 40`, subtract 10 if
`precipitation > 5`, clamp to [0,100]. -/
def skiingSpecScore (w : DailyWeather) : ℚ :=
  clampScore ((if w.snowfall > 0 then min 50 (w.snowfall * 5) else 0)
    + (if w.maxTemp < 2 then 30 else if w.maxTemp < 7 then 15 else 0)
    + (if w.windSpeed > 40 then -15 else 0)
    + (if w.precipitation > 5 then -10 else 0))

/-- The wind contribution to the Surfing score as the spec words it:
+25 exactly when `10 < windSpeed < 35`, -20 exactly when `windSpeed > 40`,
0 otherwise. -/
def surfingWindSpec (w : DailyWeather) : ℚ :=
  if 10 < w.windSpeed ∧ w.windSpeed < 35 then 25
  else if w.windSpeed > 40 then -20 else 0

/-! ### Claim theorems -/

/-- C1: the claim says an empty input fails with an `InvalidInputError` and
returns no partial result.  The code has no such check: on `[]`,
`calculateActivityRankings` throws nothing and returns four complete
rankings whose `averageScore` is `Math.round(0 / 0) = NaN` (modelled as
`none`) — exactly the non-numeric propagation the claim rules out. -/
theorem calculateActivityRankings_empty_returns_nan_rankings :
    calculateActivityRankings []
      = [⟨"Skiing", none, [], "Not the best week for Skiing."⟩,
         ⟨"Surfing", none, [], "Not the best week for Surfing."⟩,
         ⟨"Outdoor Sightseeing", none, [], "Not the best week for Outdoor Sightseeing."⟩,
         ⟨"Indoor Sightseeing", none, [], "Not the best week for Indoor Sightseeing."⟩] := by
  rfl

/-- C2: the claim says every stored per-day score is an integer obtained by
round-to-nearest.  The code stores the raw clamped score with no rounding:
on the single day `dBad` (precipitation `0.25` mm) the Outdoor Sightseeing
ranking stores the score `99.5`, which equals no integer. -/
theorem outdoor_day_score_not_integer :
    (calculateActivityRankings [dBad]).map
        (fun r => r.dailyScores.map ActivityDayScore.score)
      = [[0], [95], [199 / 2], [70]] ∧
    ∀ n : ℤ, ((199 : ℚ) / 2) ≠ (n : ℚ) := by
  constructor
  · simp only [calculateActivityRankings, rankActivity, List.map_cons, List.map_nil,
      scoreSkiing, scoreSurfing, scoreOutdoorSightseeing, scoreIndoorSightseeing,
      clampScore, dBad]
    norm_num
  · intro n h
    rw [div_eq_iff (by norm_num : (2 : ℚ) ≠ 0)] at h
    have h2 : (199 : ℤ) = n * 2 := by exact_mod_cast h
    omega

/-- C3: for every weather record, each of the four scoring functions returns
a value in [0, 100]: every function ends with the clamp
`Math.max(0, Math.min(100, score))`. -/
theorem score_functions_bounded (w : DailyWeather) :
    (0 ≤ scoreSkiing w ∧ scoreSkiing w ≤ 100) ∧
    (0 ≤ scoreSurfing w ∧ scoreSurfing w ≤ 100) ∧
    (0 ≤ scoreOutdoorSightseeing w ∧ scoreOutdoorSightseeing w ≤ 100) ∧
    (0 ≤ scoreIndoorSightseeing w ∧ scoreIndoorSightseeing w ≤ 100) :=
  ⟨⟨clampScore_nonneg _, clampScore_le _⟩, ⟨clampScore_nonneg _, clampScore_le _⟩,
   ⟨clampScore_nonneg _, clampScore_le _⟩, ⟨clampScore_nonneg _, clampScore_le _⟩⟩

/-- C4: `scoreSkiing` computes exactly the formula of the spec (baseline 0,
`min(50, snowfall x 5)` when snowing, +30 / +15 temperature tiers, -15 wind
penalty, -10 rain penalty, clamped), and the spec's scenario day
`{maxTemp 1, minTemp -5, precipitation 0, windSpeed 10, snowfall 4,
cloudCover 20}` scores exactly 50. -/
theorem scoreSkiing_matches_spec_formula :
    (∀ w, scoreSkiing w = skiingSpecScore w) ∧ scoreSkiing day1 = 50 := by
  constructor
  · intro w
    simp only [scoreSkiing, skiingSpecScore]
    split_ifs <;> (congr 1; ring)
  · simp only [scoreSkiing, day1, clampScore]
    norm_num

/-- C5: in `scoreSurfing` the wind adjustment is +25 exactly when
`10 < windSpeed < 35` and -20 exactly when `windSpeed > 40`, and for every
`windSpeed` in the closed interval [35, 40] neither adjustment applies, so
wind contributes 0. -/
theorem scoreSurfing_wind_dead_zone (w : DailyWeather) :
    (scoreSurfing w = clampScore (50 + surfingWindSpec w
      + (if 18 < w.maxTemp then 20 else 0)
      + (if 8 < w.precipitation then -15 else 0))) ∧
    (35 ≤ w.windSpeed → w.windSpeed ≤ 40 → surfingWindSpec w = 0) := by
  constructor
  · simp only [scoreSurfing, surfingWindSpec]
    split_ifs <;> (congr 1; ring)
  · intro h1 h2
    simp only [surfingWindSpec]
    rw [if_neg, if_neg]
    · intro h; linarith
    · rintro ⟨ha, hb⟩; linarith

/-- C5 witness: the spec's boundary day with `windSpeed = 37` sits in the
dead zone and gets wind contribution 0. -/
theorem scoreSurfing_wind_dead_zone_witness : surfingWindSpec day37 = 0 :=
  (scoreSurfing_wind_dead_zone day37).2 (by norm_num [day37]) (by norm_num [day37])

/-- C6: for every non-empty day sequence and every ranking in the output,
`averageScore` equals the mean of that ranking's stored daily scores rounded
to the nearest integer with ties rounding half up (`jsRound`). -/
theorem averageScore_eq_rounded_mean (wd : List DailyWeather)
    (r : ActivityRanking) (hne : wd ≠ [])
    (hr : r ∈ calculateActivityRankings wd) :
    r.averageScore = some (jsRound
      ((r.dailyScores.map ActivityDayScore.score).sum
        / (r.dailyScores.length : ℚ))) := by
  simp only [calculateActivityRankings, List.map_cons, List.map_nil,
    List.mem_cons, List.not_mem_nil, or_false] at hr
  rcases hr with rfl | rfl | rfl | rfl <;>
    exact rankActivity_averageScore _ _ wd hne

/-- C6 witness: on the one-day input `[d0]` the Surfing ranking stores the
daily score 95 and reports `averageScore = round(95 / 1) = 95`. -/
theorem averageScore_eq_rounded_mean_witness :
    rk1.averageScore = some (jsRound
      ((rk1.dailyScores.map ActivityDayScore.score).sum
        / (rk1.dailyScores.length : ℚ))) :=
  averageScore_eq_rounded_mean [d0] rk1 (by simp)
    (by rw [calc_d0]; exact List.mem_cons_of_mem _ (List.mem_cons_self _ _))

/-- C7: `calculateActivityRankings` is deterministic — two calls on equal
inputs return equal outputs; the embedded function reads nothing but its
argument, matching the stateless source. -/
theorem calculateActivityRankings_deterministic
    (wd1 wd2 : List DailyWeather) (h : wd1 = wd2) :
    calculateActivityRankings wd1 = calculateActivityRankings wd2 := by
  rw [h]

/-- C7 witness: the two calls on the concrete input `[d0]` agree. -/
theorem calculateActivityRankings_deterministic_witness :
    calculateActivityRankings [d0] = calculateActivityRankings [d0] :=
  calculateActivityRankings_deterministic [d0] [d0] rfl

/-- C8: for every input, the output has exactly one ranking per activity in
the fixed source order Skiing, Surfing, Outdoor Sightseeing, Indoor
Sightseeing (never sorted by score), and each ranking's `dailyScores` has
one entry per input day, in input order, with the dates copied from the
input days. -/
theorem rankings_fixed_activity_order_and_dates (wd : List DailyWeather) :
    (calculateActivityRankings wd).map ActivityRanking.activity
      = ["Skiing", "Surfing", "Outdoor Sightseeing", "Indoor Sightseeing"] ∧
    (calculateActivityRankings wd).map
        (fun r => r.dailyScores.map ActivityDayScore.date)
      = List.replicate 4 (wd.map DailyWeather.date) := by
  constructor
  · simp [calculateActivityRankings, rankActivity]
  · simp [calculateActivityRankings, rankActivity, List.map_map, List.replicate]

/-- C9: in every ranking of every output, each day's `conditions` label
equals `getConditionDescription` of that day's stored `score`: both fields
are computed from the same `scoreFn(day)` value, so they are always
mutually consistent. -/
theorem conditions_label_matches_score (wd : List DailyWeather)
    (r : ActivityRanking) (d : ActivityDayScore)
    (hr : r ∈ calculateActivityRankings wd) (hd : d ∈ r.dailyScores) :
    d.conditions = getConditionDescription d.score := by
  simp only [calculateActivityRankings, List.map_cons, List.map_nil,
    List.mem_cons, List.not_mem_nil, or_false] at hr
  rcases hr with rfl | rfl | rfl | rfl <;>
    (simp only [rankActivity, List.mem_map] at hd;
     obtain ⟨day, hday, rfl⟩ := hd;
     rfl)

/-- C9 witness: the Skiing day entry produced for `[d0]` carries the label
`getConditionDescription` assigns to its own score. -/
theorem conditions_label_matches_score_witness :
    (⟨"2024-01-01", 0, "Poor"⟩ : ActivityDayScore).conditions
      = getConditionDescription
          (⟨"2024-01-01", 0, "Poor"⟩ : ActivityDayScore).score :=
  conditions_label_matches_score [d0] rk0 ⟨"2024-01-01", 0, "Poor"⟩
    (by rw [calc_d0]; exact List.mem_cons_self _ _)
    (List.mem_cons_self _ _)

/-- C10: `scoreIndoorSightseeing` always lies in [50, 100] (the single -20
penalty from baseline 70 is the worst case, and it excludes both bonuses),
so an Indoor Sightseeing day never gets the "Poor" label, and for every
non-empty input the Indoor Sightseeing ranking (position 3 of the output)
has a numeric `averageScore` of at least 50. -/
theorem indoor_sightseeing_score_floor :
    (∀ w, 50 ≤ scoreIndoorSightseeing w ∧ scoreIndoorSightseeing w ≤ 100 ∧
      getConditionDescription (scoreIndoorSightseeing w) ≠ "Poor") ∧
    (∀ wd r, wd ≠ [] → (calculateActivityRankings wd).get? 3 = some r →
      ∃ a, r.averageScore = some a ∧ 50 ≤ a) := by
  constructor
  · intro w
    refine ⟨scoreIndoor_ge w, clampScore_le _, ?_⟩
    have h50 := scoreIndoor_ge w
    simp only [getConditionDescription]
    split_ifs with h1 h2 h3
    · decide
    · decide
    · decide
    · exfalso; apply h3; linarith
  · intro wd r hne hr
    simp only [calculateActivityRankings, List.map_cons, List.map_nil,
      List.get?] at hr
    obtain rfl : rankActivity "Indoor Sightseeing" scoreIndoorSightseeing wd = r :=
      Option.some_injective _ hr
    simp only [rankActivity]
    rw [if_neg (by simp [hne])]
    refine ⟨_, rfl, ?_⟩
    rw [foldl_add_score]
    apply jsRound_ge
    rw [zero_add]
    push_cast
    rw [le_div_iff₀]
    · have hs : ∀ x ∈ ((wd.map (fun day => ActivityDayScore.mk day.date
          (scoreIndoorSightseeing day)
          (getConditionDescription (scoreIndoorSightseeing day)))).map
            ActivityDayScore.score), (50 : ℚ) ≤ x := by
        intro x hx
        simp only [List.map_map, List.mem_map, Function.comp] at hx
        obtain ⟨day, hday, rfl⟩ := hx
        exact scoreIndoor_ge day
      have hsum := sum_ge_card_mul _ 50 hs
      simp only [List.length_map] at hsum ⊢
      linarith
    · simp only [List.length_map]
      have hpos : 0 < wd.length := List.length_pos.mpr hne
      positivity

/-- C10 witness: on the input `[d0]` the Indoor Sightseeing ranking has
`averageScore = 50 ≥ 50`. -/
theorem indoor_sightseeing_score_floor_witness :
    ∃ a, rk3.averageScore = some a ∧ 50 ≤ a :=
  indoor_sightseeing_score_floor.2 [d0] rk3 (by simp)
    (by rw [calc_d0]; rfl)
